import Mathlib

/-!
Verification of the ivPID controller (`src/PID.py`).

The controller is a single mutable record of rational-valued fields plus a
boolean flush flag.  Python floats are modelled as rationals; the ambient
clock `time.time()` is modelled by passing the current time `now` explicitly
to every operation that reads it.  Each method of the Python class becomes a
pure state-transformer below, translated line by line from the source.
-/

/-- The mutable state of the Python `PID` object: one field per instance
attribute assigned in `src/PID.py`. -/
structure PID where
  Kp : ℚ
  Ki : ℚ
  Kd : ℚ
  flush : Bool
  flush_pressure : ℚ
  sample_time : ℚ
  current_time : ℚ
  last_time : ℚ
  windup_guard : ℚ
  SetPoint : ℚ
  PTerm : ℚ
  ITerm : ℚ
  DTerm : ℚ
  last_error : ℚ
  int_error : ℚ
  output : ℚ
deriving Repr, DecidableEq

/-- `PID.clear` (lines 46-63): resets computations; `now` stands for the
`time.time()` read.  Note the source sets `flush = False` but does not touch
`flush_pressure`, and never touches the gains. -/
def PID.clear (now : ℚ) (s : PID) : PID :=
  { s with
    sample_time := 0
    current_time := now
    last_time := now
    windup_guard := 1000000
    SetPoint := 0
    flush := false
    PTerm := 0
    ITerm := 0
    DTerm := 0
    last_error := 0
    int_error := 0
    output := 0 }

/-- `PID.__init__` (lines 37-44): stores the gains, initialises the flush
fields, then calls `clear`. -/
def PID.init (now P I D : ℚ) : PID :=
  PID.clear now
    { Kp := P, Ki := I, Kd := D, flush := false, flush_pressure := 0,
      sample_time := 0, current_time := now, last_time := now,
      windup_guard := 1000000, SetPoint := 0, PTerm := 0, ITerm := 0,
      DTerm := 0, last_error := 0, int_error := 0, output := 0 }

/-- `PID.start_flush_at_pressure` (lines 65-68). -/
def PID.start_flush_at_pressure (pressure : ℚ) (s : PID) : PID :=
  { s with flush := true, flush_pressure := pressure }

/-- `PID.restart_flow` (lines 70-88): the source first sets `Ki = newI` and
then seeds `ITerm = lastOutput / self.Ki`, so the seed divides by `newI`.
Rational division by zero is total (equal to `0`) in this embedding, whereas
Python raises `ZeroDivisionError` when `newI = 0`. -/
def PID.restart_flow (now newSetpoint newI lastOutput : ℚ) (s : PID) : PID :=
  { s with
    Ki := newI
    sample_time := 0
    current_time := now
    last_time := now
    windup_guard := 1000000
    flush := false
    flush_pressure := 0
    PTerm := 0
    ITerm := lastOutput / newI
    DTerm := 0
    last_error := 0
    int_error := 0
    output := lastOutput
    SetPoint := newSetpoint }

/-- `PID.stop_flush` (lines 92-97): clears the flush fields and the
setpoint, then performs a full `clear`. -/
def PID.stop_flush (now : ℚ) (s : PID) : PID :=
  PID.clear now { s with flush := false, flush_pressure := 0, SetPoint := 0 }

/-- `PID.clearI` (lines 99-101). -/
def PID.clearI (s : PID) : PID :=
  { s with ITerm := 0 }

/-- `PID.update` (lines 103-143): `now` stands for the `time.time()` read on
line 117.  Returns the updated state together with the value the Python
method returns. -/
def PID.update (now feedback_value : ℚ) (s : PID) : PID × ℚ :=
  let error := s.SetPoint - feedback_value
  let delta_time := now - s.last_time
  let delta_error := error - s.last_error
  let s1 := { s with current_time := now, last_time := now, last_error := error }
  let s2 :=
    if delta_time ≥ s.sample_time then
      let pTerm := s.Kp * error
      let iTerm0 := s.ITerm + error * delta_time
      let iTerm :=
        if iTerm0 < -s.windup_guard then -s.windup_guard
        else if iTerm0 > s.windup_guard then s.windup_guard
        else iTerm0
      let dTerm := if delta_time > 0 then delta_error / delta_time else 0
      { s1 with
        PTerm := pTerm
        ITerm := iTerm
        DTerm := dTerm
        output := pTerm + s.Ki * iTerm + s.Kd * dTerm }
    else s1
  (s2, if s2.flush then s2.flush_pressure else s2.output)

/-- `PID.setTargetValue` (lines 145-146). -/
def PID.setTargetValue (targetValue : ℚ) (s : PID) : PID :=
  { s with SetPoint := targetValue }

/-- `PID.setKp` (lines 148-150). -/
def PID.setKp (proportional_gain : ℚ) (s : PID) : PID :=
  { s with Kp := proportional_gain }

/-- `PID.setKi` (lines 152-154). -/
def PID.setKi (integral_gain : ℚ) (s : PID) : PID :=
  { s with Ki := integral_gain }

/-- `PID.setKd` (lines 156-158). -/
def PID.setKd (derivative_gain : ℚ) (s : PID) : PID :=
  { s with Kd := derivative_gain }

/-- `PID.setWindup` (lines 160-170). -/
def PID.setWindup (windup : ℚ) (s : PID) : PID :=
  { s with windup_guard := windup }

/-- `PID.getTargetValue` (lines 172-173). -/
def PID.getTargetValue (s : PID) : ℚ :=
  s.SetPoint

/-- `PID.getFlushValue` (lines 175-176). -/
def PID.getFlushValue (s : PID) : Bool :=
  s.flush

/-- `PID.setSampleTime` (lines 178-182). -/
def PID.setSampleTime (sample_time : ℚ) (s : PID) : PID :=
  { s with sample_time := sample_time }

/-- Runs a list of `update` calls, each given as a `(now, feedback)` pair,
and collects the returned outputs. -/
def PID.runUpdates (s : PID) : List (ℚ × ℚ) → List ℚ
  | [] => []
  | (t, x) :: rest =>
      let r := PID.update t x s
      r.2 :: PID.runUpdates r.1 rest

/-- States reachable from construction by the public operations of the
class, with arbitrary clock readings. -/
inductive PID.Reachable : PID → Prop where
  | init : ∀ now P I D, PID.Reachable (PID.init now P I D)
  | clear : ∀ s now, PID.Reachable s → PID.Reachable (PID.clear now s)
  | start_flush : ∀ s p, PID.Reachable s →
      PID.Reachable (PID.start_flush_at_pressure p s)
  | restart : ∀ s now sp newI lastOut, PID.Reachable s →
      PID.Reachable (PID.restart_flow now sp newI lastOut s)
  | stop : ∀ s now, PID.Reachable s → PID.Reachable (PID.stop_flush now s)
  | clearI : ∀ s, PID.Reachable s → PID.Reachable (PID.clearI s)
  | update : ∀ s now x, PID.Reachable s →
      PID.Reachable (PID.update now x s).1
  | setTargetValue : ∀ s v, PID.Reachable s →
      PID.Reachable (PID.setTargetValue v s)
  | setKp : ∀ s v, PID.Reachable s → PID.Reachable (PID.setKp v s)
  | setKi : ∀ s v, PID.Reachable s → PID.Reachable (PID.setKi v s)
  | setKd : ∀ s v, PID.Reachable s → PID.Reachable (PID.setKd v s)
  | setWindup : ∀ s v, PID.Reachable s → PID.Reachable (PID.setWindup v s)
  | setSampleTime : ∀ s v, PID.Reachable s →
      PID.Reachable (PID.setSampleTime v s)

/-! ### Basic facts about `update` -/

lemma PID.update_flush (now x : ℚ) (s : PID) :
    ((PID.update now x s).1).flush = s.flush := by
  simp only [PID.update]
  split <;> rfl

lemma PID.update_flush_pressure (now x : ℚ) (s : PID) :
    ((PID.update now x s).1).flush_pressure = s.flush_pressure := by
  simp only [PID.update]
  split <;> rfl

lemma PID.update_sample_time (now x : ℚ) (s : PID) :
    ((PID.update now x s).1).sample_time = s.sample_time := by
  simp only [PID.update]
  split <;> rfl

lemma PID.update_windup_guard (now x : ℚ) (s : PID) :
    ((PID.update now x s).1).windup_guard = s.windup_guard := by
  simp only [PID.update]
  split <;> rfl

lemma PID.update_last_time (now x : ℚ) (s : PID) :
    ((PID.update now x s).1).last_time = now := by
  simp only [PID.update]
  split <;> rfl

lemma PID.update_last_error (now x : ℚ) (s : PID) :
    ((PID.update now x s).1).last_error = s.SetPoint - x := by
  simp only [PID.update]
  split <;> rfl

lemma PID.update_ret (now x : ℚ) (s : PID) :
    (PID.update now x s).2 =
      if s.flush then s.flush_pressure else ((PID.update now x s).1).output := by
  simp only [PID.update]
  split <;> rfl

/-! ### Claim C1: flush override -/

lemma PID.runUpdates_of_flush (p : ℚ) :
    ∀ (calls : List (ℚ × ℚ)) (s : PID), s.flush = true → s.flush_pressure = p →
      PID.runUpdates s calls = List.replicate calls.length p := by
  intro calls
  induction calls with
  | nil => intro s _ _; rfl
  | cons c rest ih =>
      intro s hf hp
      obtain ⟨t, x⟩ := c
      have hret : (PID.update t x s).2 = p := by
        rw [PID.update_ret, hf, if_pos rfl, hp]
      have hf1 : ((PID.update t x s).1).flush = true := by
        rw [PID.update_flush, hf]
      have hp1 : ((PID.update t x s).1).flush_pressure = p := by
        rw [PID.update_flush_pressure, hp]
      simp only [PID.runUpdates, List.length_cons, List.replicate_succ, hret,
        ih _ hf1 hp1]

/-- Claim C1: after `start_flush_at_pressure p`, every subsequent `update`
call returns exactly `p`, whatever the feedback values and clock readings,
as long as only `update` calls occur (i.e. until `stop_flush` or
`restart_flow` — or any other flush-clearing operation — intervenes). -/
theorem PID.flush_override (p : ℚ) (s : PID) (calls : List (ℚ × ℚ)) :
    PID.runUpdates (PID.start_flush_at_pressure p s) calls =
      List.replicate calls.length p :=
  PID.runUpdates_of_flush p calls _ rfl rfl

/-! ### Claim C3: sample-time gating -/

lemma PID.update_SetPoint (now x : ℚ) (s : PID) :
    ((PID.update now x s).1).SetPoint = s.SetPoint := by
  simp only [PID.update]
  split <;> rfl

lemma PID.update_not_effective (now x : ℚ) (s : PID)
    (h : now - s.last_time < s.sample_time) :
    (PID.update now x s).1 =
      { s with current_time := now, last_time := now,
               last_error := s.SetPoint - x } := by
  simp only [PID.update]
  rw [if_neg (not_le.mpr h)]

lemma PID.update_ITerm_effective (now x : ℚ) (s : PID)
    (h : s.sample_time ≤ now - s.last_time) :
    ((PID.update now x s).1).ITerm =
      if s.ITerm + (s.SetPoint - x) * (now - s.last_time) < -s.windup_guard
      then -s.windup_guard
      else if s.ITerm + (s.SetPoint - x) * (now - s.last_time) > s.windup_guard
      then s.windup_guard
      else s.ITerm + (s.SetPoint - x) * (now - s.last_time) := by
  simp only [PID.update]
  rw [if_pos h]

lemma PID.update_DTerm_effective (now x : ℚ) (s : PID)
    (h : s.sample_time ≤ now - s.last_time) :
    ((PID.update now x s).1).DTerm =
      if now - s.last_time > 0
      then ((s.SetPoint - x) - s.last_error) / (now - s.last_time)
      else 0 := by
  simp only [PID.update]
  rw [if_pos h]

lemma PID.update_PTerm_effective (now x : ℚ) (s : PID)
    (h : s.sample_time ≤ now - s.last_time) :
    ((PID.update now x s).1).PTerm = s.Kp * (s.SetPoint - x) := by
  simp only [PID.update]
  rw [if_pos h]

lemma PID.update_output_effective (now x : ℚ) (s : PID)
    (h : s.sample_time ≤ now - s.last_time) :
    ((PID.update now x s).1).output =
      s.Kp * (s.SetPoint - x)
      + s.Ki * ((PID.update now x s).1).ITerm
      + s.Kd * ((PID.update now x s).1).DTerm := by
  simp only [PID.update]
  rw [if_pos h]

/-- Claim C3: if the second of two consecutive `update` calls happens less
than `sample_time` after the first, it returns the first call's value and
recomputes none of the P/I/D terms nor `output`, while `last_time` and
`last_error` still advance to the second call's clock reading and error. -/
theorem PID.sample_time_gating (s : PID) (t1 x1 t2 x2 : ℚ)
    (h : t2 - t1 < s.sample_time) :
    (PID.update t2 x2 (PID.update t1 x1 s).1).2 = (PID.update t1 x1 s).2 ∧
    ((PID.update t2 x2 (PID.update t1 x1 s).1).1).PTerm =
      ((PID.update t1 x1 s).1).PTerm ∧
    ((PID.update t2 x2 (PID.update t1 x1 s).1).1).ITerm =
      ((PID.update t1 x1 s).1).ITerm ∧
    ((PID.update t2 x2 (PID.update t1 x1 s).1).1).DTerm =
      ((PID.update t1 x1 s).1).DTerm ∧
    ((PID.update t2 x2 (PID.update t1 x1 s).1).1).output =
      ((PID.update t1 x1 s).1).output ∧
    ((PID.update t2 x2 (PID.update t1 x1 s).1).1).last_time = t2 ∧
    ((PID.update t2 x2 (PID.update t1 x1 s).1).1).last_error =
      s.SetPoint - x2 := by
  have h2 : t2 - ((PID.update t1 x1 s).1).last_time <
      ((PID.update t1 x1 s).1).sample_time := by
    rw [PID.update_last_time, PID.update_sample_time]
    exact h
  have hst := PID.update_not_effective t2 x2 (PID.update t1 x1 s).1 h2
  refine ⟨?_, ?_, ?_, ?_, ?_, ?_, ?_⟩
  · rw [PID.update_ret t2 x2, PID.update_ret t1 x1, hst,
      PID.update_flush, PID.update_flush_pressure]
  · rw [hst]
  · rw [hst]
  · rw [hst]
  · rw [hst]
  · rw [hst]
  · rw [hst]; exact congrArg (· - x2) (PID.update_SetPoint t1 x1 s)

/-- Witness for C3 at a concrete state and clock pair. -/
theorem PID.sample_time_gating_witness :
    (PID.update 3 7 (PID.update 1 4 (PID.setSampleTime 10 (PID.init 0 (1/5) 0 0))).1).2 =
      (PID.update 1 4 (PID.setSampleTime 10 (PID.init 0 (1/5) 0 0))).2 ∧
    ((PID.update 3 7 (PID.update 1 4 (PID.setSampleTime 10 (PID.init 0 (1/5) 0 0))).1).1).PTerm =
      ((PID.update 1 4 (PID.setSampleTime 10 (PID.init 0 (1/5) 0 0))).1).PTerm ∧
    ((PID.update 3 7 (PID.update 1 4 (PID.setSampleTime 10 (PID.init 0 (1/5) 0 0))).1).1).ITerm =
      ((PID.update 1 4 (PID.setSampleTime 10 (PID.init 0 (1/5) 0 0))).1).ITerm ∧
    ((PID.update 3 7 (PID.update 1 4 (PID.setSampleTime 10 (PID.init 0 (1/5) 0 0))).1).1).DTerm =
      ((PID.update 1 4 (PID.setSampleTime 10 (PID.init 0 (1/5) 0 0))).1).DTerm ∧
    ((PID.update 3 7 (PID.update 1 4 (PID.setSampleTime 10 (PID.init 0 (1/5) 0 0))).1).1).output =
      ((PID.update 1 4 (PID.setSampleTime 10 (PID.init 0 (1/5) 0 0))).1).output ∧
    ((PID.update 3 7 (PID.update 1 4 (PID.setSampleTime 10 (PID.init 0 (1/5) 0 0))).1).1).last_time = 3 ∧
    ((PID.update 3 7 (PID.update 1 4 (PID.setSampleTime 10 (PID.init 0 (1/5) 0 0))).1).1).last_error =
      (PID.setSampleTime 10 (PID.init 0 (1/5) 0 0)).SetPoint - 7 :=
  PID.sample_time_gating (PID.setSampleTime 10 (PID.init 0 (1/5) 0 0)) 1 4 3 7
    (by norm_num [PID.setSampleTime, PID.init, PID.clear])

/-! ### Claim C9: P-only response -/

/-- Claim C9: with `Ki = 0`, `Kd = 0` and flush off, every effective
`update` call returns exactly `Kp * (SetPoint - feedback)`, whatever the
elapsed time. -/
theorem PID.p_only_response (s : PID) (now x : ℚ)
    (hKi : s.Ki = 0) (hKd : s.Kd = 0) (hf : s.flush = false)
    (heff : s.sample_time ≤ now - s.last_time) :
    (PID.update now x s).2 = s.Kp * (s.SetPoint - x) := by
  simp only [PID.update]
  rw [if_pos heff]
  simp [hKi, hKd, hf]

/-- Witness for C9: the freshly constructed controller has `Ki = Kd = 0`. -/
theorem PID.p_only_response_witness :
    (PID.update 2 3 (PID.init 0 (1/5) 0 0)).2 =
      (PID.init 0 (1/5) 0 0).Kp * ((PID.init 0 (1/5) 0 0).SetPoint - 3) :=
  PID.p_only_response (PID.init 0 (1/5) 0 0) 2 3 rfl rfl rfl
    (by norm_num [PID.init, PID.clear])

/-! ### Claim C7: `restart_flow` under the precondition `newI ≠ 0` -/

/-- Claim C7: with `newI ≠ 0` the integral seed `lastOutput / newI` is a
well-defined division (the final conjunct back-solves it), and
`restart_flow` sets exactly the fields the claim lists. -/
theorem PID.restart_flow_spec (s : PID) (now sp newI lastOut : ℚ)
    (h : newI ≠ 0) :
    (PID.restart_flow now sp newI lastOut s).Ki = newI ∧
    (PID.restart_flow now sp newI lastOut s).ITerm = lastOut / newI ∧
    (PID.restart_flow now sp newI lastOut s).output = lastOut ∧
    (PID.restart_flow now sp newI lastOut s).SetPoint = sp ∧
    (PID.restart_flow now sp newI lastOut s).flush = false ∧
    (PID.restart_flow now sp newI lastOut s).flush_pressure = 0 ∧
    (PID.restart_flow now sp newI lastOut s).PTerm = 0 ∧
    (PID.restart_flow now sp newI lastOut s).DTerm = 0 ∧
    (PID.restart_flow now sp newI lastOut s).last_error = 0 ∧
    (PID.restart_flow now sp newI lastOut s).sample_time = 0 ∧
    (PID.restart_flow now sp newI lastOut s).windup_guard = 1000000 ∧
    newI * (PID.restart_flow now sp newI lastOut s).ITerm = lastOut := by
  refine ⟨rfl, rfl, rfl, rfl, rfl, rfl, rfl, rfl, rfl, rfl, rfl, ?_⟩
  show newI * (lastOut / newI) = lastOut
  field_simp

/-- Witness for C7 at concrete arguments. -/
theorem PID.restart_flow_spec_witness :
    (PID.restart_flow 0 10 2 4 (PID.init 0 (1/5) 0 0)).Ki = 2 ∧
    (PID.restart_flow 0 10 2 4 (PID.init 0 (1/5) 0 0)).ITerm = 4 / 2 ∧
    (PID.restart_flow 0 10 2 4 (PID.init 0 (1/5) 0 0)).output = 4 ∧
    (PID.restart_flow 0 10 2 4 (PID.init 0 (1/5) 0 0)).SetPoint = 10 ∧
    (PID.restart_flow 0 10 2 4 (PID.init 0 (1/5) 0 0)).flush = false ∧
    (PID.restart_flow 0 10 2 4 (PID.init 0 (1/5) 0 0)).flush_pressure = 0 ∧
    (PID.restart_flow 0 10 2 4 (PID.init 0 (1/5) 0 0)).PTerm = 0 ∧
    (PID.restart_flow 0 10 2 4 (PID.init 0 (1/5) 0 0)).DTerm = 0 ∧
    (PID.restart_flow 0 10 2 4 (PID.init 0 (1/5) 0 0)).last_error = 0 ∧
    (PID.restart_flow 0 10 2 4 (PID.init 0 (1/5) 0 0)).sample_time = 0 ∧
    (PID.restart_flow 0 10 2 4 (PID.init 0 (1/5) 0 0)).windup_guard = 1000000 ∧
    2 * (PID.restart_flow 0 10 2 4 (PID.init 0 (1/5) 0 0)).ITerm = 4 :=
  PID.restart_flow_spec (PID.init 0 (1/5) 0 0) 0 10 2 4 (by norm_num)

/-! ### Claim C8: the derivative term never divides by zero -/

/-- Claim C8: on an effective update with non-decreasing clock readings,
`DTerm` is `delta_error / delta_time` when `delta_time > 0` (and then the
divisor is nonzero), and `0` otherwise, so `update` is total. -/
theorem PID.dterm_no_div_by_zero (s : PID) (now x : ℚ)
    (hmono : s.last_time ≤ now)
    (heff : s.sample_time ≤ now - s.last_time) :
    (0 < now - s.last_time →
      now - s.last_time ≠ 0 ∧
      ((PID.update now x s).1).DTerm =
        ((s.SetPoint - x) - s.last_error) / (now - s.last_time)) ∧
    (¬ 0 < now - s.last_time → ((PID.update now x s).1).DTerm = 0) := by
  constructor
  · intro hpos
    refine ⟨ne_of_gt hpos, ?_⟩
    simp only [PID.update]
    rw [if_pos heff]
    dsimp only
    rw [if_pos hpos]
  · intro hz
    simp only [PID.update]
    rw [if_pos heff]
    dsimp only
    rw [if_neg hz]

/-- Witness for C8 at a concrete call with positive elapsed time. -/
theorem PID.dterm_no_div_by_zero_witness :
    ((0:ℚ) < 2 - (PID.init 0 (1/5) 0 0).last_time →
      (2:ℚ) - (PID.init 0 (1/5) 0 0).last_time ≠ 0 ∧
      ((PID.update 2 3 (PID.init 0 (1/5) 0 0)).1).DTerm =
        (((PID.init 0 (1/5) 0 0).SetPoint - 3) -
          (PID.init 0 (1/5) 0 0).last_error) /
          (2 - (PID.init 0 (1/5) 0 0).last_time)) ∧
    (¬ (0:ℚ) < 2 - (PID.init 0 (1/5) 0 0).last_time →
      ((PID.update 2 3 (PID.init 0 (1/5) 0 0)).1).DTerm = 0) :=
  PID.dterm_no_div_by_zero (PID.init 0 (1/5) 0 0) 2 3
    (by norm_num [PID.init, PID.clear]) (by norm_num [PID.init, PID.clear])

/-! ### Claim C2: the windup clamp -/

/-- Counterexample to C2 as stated: drive `ITerm` to the clamp bound `10`
by an effective update, lower the guard to `1` with `setWindup`, then make
a non-effective update (elapsed `50 < sample_time = 100`).  That update
call leaves `ITerm = 10`, strictly above the stored guard `1`. -/
theorem PID.windup_claim_cex :
    ((PID.update 150 0 (PID.setWindup 1 ((PID.update 100 (-1000)
        (PID.setWindup 10 (PID.setSampleTime 100 (PID.init 0 (1/5) 0 0)))).1))).1).ITerm >
      ((PID.update 150 0 (PID.setWindup 1 ((PID.update 100 (-1000)
        (PID.setWindup 10 (PID.setSampleTime 100 (PID.init 0 (1/5) 0 0)))).1))).1).windup_guard := by
  norm_num [PID.update, PID.setWindup, PID.setSampleTime, PID.init, PID.clear]

/-- Amended C2: after any *effective* update (`delta_time ≥ sample_time`)
performed while `windup_guard ≥ 0`, the stored `ITerm` lies within
`[-windup_guard, windup_guard]`.  Non-effective updates skip the clamp. -/
theorem PID.windup_clamp_effective (s : PID) (now x : ℚ)
    (hg : 0 ≤ s.windup_guard)
    (heff : s.sample_time ≤ now - s.last_time) :
    -((PID.update now x s).1).windup_guard ≤ ((PID.update now x s).1).ITerm ∧
    ((PID.update now x s).1).ITerm ≤ ((PID.update now x s).1).windup_guard := by
  rw [PID.update_windup_guard]
  simp only [PID.update]
  rw [if_pos heff]
  dsimp only
  split
  · constructor <;> linarith
  · split
    · constructor <;> linarith
    · constructor <;> linarith

/-- Witness for the amended C2 at a concrete effective update. -/
theorem PID.windup_clamp_effective_witness :
    -((PID.update 2 3 (PID.init 0 (1/5) 0 0)).1).windup_guard ≤
      ((PID.update 2 3 (PID.init 0 (1/5) 0 0)).1).ITerm ∧
    ((PID.update 2 3 (PID.init 0 (1/5) 0 0)).1).ITerm ≤
      ((PID.update 2 3 (PID.init 0 (1/5) 0 0)).1).windup_guard :=
  PID.windup_clamp_effective (PID.init 0 (1/5) 0 0) 2 3
    (by norm_num [PID.init, PID.clear]) (by norm_num [PID.init, PID.clear])

/-! ### Claim C4: resume continuity -/

/-- Counterexample to C4 as stated: with `newI = 1/10000000 ≠ 0` and
`lastOut = 10`, the seed `ITerm = 10^8` is clamped to `10^6` by the next
update, whose return value is `1/10`, not `10`. -/
theorem PID.resume_continuity_cex :
    (PID.update 0 0 (PID.restart_flow 0 0 (1/10000000) 10 (PID.init 0 (1/5) 0 0))).2 = 1/10 ∧
    (PID.update 0 0 (PID.restart_flow 0 0 (1/10000000) 10 (PID.init 0 (1/5) 0 0))).2 ≠ 10 := by
  constructor <;> norm_num [PID.update, PID.restart_flow, PID.init, PID.clear]

/-- Amended C4: `restart_flow sp newI lastOut` followed by one `update` at
feedback `sp` returns exactly `lastOut`, provided `newI ≠ 0` and the seeded
integral `lastOut / newI` is within the fresh windup guard `10^6` (otherwise
the clamp breaks continuity, see the counterexample), for any later clock
reading. -/
theorem PID.resume_continuity (s : PID) (t0 t1 sp newI lastOut : ℚ)
    (hI : newI ≠ 0)
    (hlo : -(1000000 : ℚ) ≤ lastOut / newI)
    (hhi : lastOut / newI ≤ 1000000)
    (ht : t0 ≤ t1) :
    (PID.update t1 sp (PID.restart_flow t0 sp newI lastOut s)).2 = lastOut := by
  have heff : (PID.restart_flow t0 sp newI lastOut s).sample_time ≤
      t1 - (PID.restart_flow t0 sp newI lastOut s).last_time := by
    show (0:ℚ) ≤ t1 - t0
    linarith
  have hIT : ((PID.update t1 sp (PID.restart_flow t0 sp newI lastOut s)).1).ITerm =
      lastOut / newI := by
    rw [PID.update_ITerm_effective _ _ _ heff]
    show (if lastOut / newI + (sp - sp) * (t1 - t0) < -(1000000:ℚ)
          then -(1000000:ℚ)
          else if lastOut / newI + (sp - sp) * (t1 - t0) > (1000000:ℚ)
          then (1000000:ℚ) else lastOut / newI + (sp - sp) * (t1 - t0)) =
        lastOut / newI
    rw [sub_self, zero_mul, add_zero, if_neg (not_lt.mpr hlo),
      if_neg (not_lt.mpr hhi)]
  have hDT : ((PID.update t1 sp (PID.restart_flow t0 sp newI lastOut s)).1).DTerm =
      0 := by
    rw [PID.update_DTerm_effective _ _ _ heff]
    show (if t1 - t0 > 0 then ((sp - sp) - 0) / (t1 - t0) else 0) = 0
    rw [sub_self, zero_sub, neg_zero, zero_div, ite_self]
  rw [PID.update_ret]
  rw [if_neg (by simp [PID.restart_flow])]
  rw [PID.update_output_effective _ _ _ heff, hIT, hDT]
  show (PID.restart_flow t0 sp newI lastOut s).Kp * (sp - sp)
      + newI * (lastOut / newI)
      + (PID.restart_flow t0 sp newI lastOut s).Kd * 0 = lastOut
  rw [sub_self, mul_zero, mul_zero, add_zero, zero_add, mul_comm,
    div_mul_cancel₀ _ hI]

/-- Witness for the amended C4: the spec's own example
`resumeFlow(10, 2, 4)` then `update(10)` returns `4`. -/
theorem PID.resume_continuity_witness :
    (PID.update 0 10 (PID.restart_flow 0 10 2 4 (PID.init 0 (1/5) 0 0))).2 = 4 :=
  PID.resume_continuity (PID.init 0 (1/5) 0 0) 0 0 10 2 4
    (by norm_num) (by norm_num) (by norm_num) le_rfl

/-! ### Claim C5: what `clear` (reset) does -/

/-- Counterexample to C5 as stated: `clear` does not zero `flush_pressure`.
Start a flush at pressure `5`, then `clear`: the stored `flush_pressure` is
still `5`, not `0`. -/
theorem PID.clear_flush_pressure_cex :
    (PID.clear 1 (PID.start_flush_at_pressure 5 (PID.init 0 (1/5) 0 0))).flush_pressure = 5 ∧
    (PID.clear 1 (PID.start_flush_at_pressure 5 (PID.init 0 (1/5) 0 0))).flush_pressure ≠ 0 := by
  constructor <;> norm_num [PID.clear, PID.start_flush_at_pressure, PID.init]

/-- Amended C5: `clear` zeroes `sample_time`, `SetPoint`, the P/I/D terms,
`last_error` and `output`, re-stamps both timestamps to now, sets the
windup guard to `10^6`, clears `flush` — but leaves `flush_pressure` (and
the gains) unchanged. -/
theorem PID.clear_spec (s : PID) (now : ℚ) :
    (PID.clear now s).sample_time = 0 ∧
    (PID.clear now s).SetPoint = 0 ∧
    (PID.clear now s).PTerm = 0 ∧
    (PID.clear now s).ITerm = 0 ∧
    (PID.clear now s).DTerm = 0 ∧
    (PID.clear now s).last_error = 0 ∧
    (PID.clear now s).output = 0 ∧
    (PID.clear now s).last_time = now ∧
    (PID.clear now s).current_time = now ∧
    (PID.clear now s).windup_guard = 1000000 ∧
    (PID.clear now s).flush = false ∧
    (PID.clear now s).flush_pressure = s.flush_pressure ∧
    (PID.clear now s).Kp = s.Kp ∧
    (PID.clear now s).Ki = s.Ki ∧
    (PID.clear now s).Kd = s.Kd :=
  ⟨rfl, rfl, rfl, rfl, rfl, rfl, rfl, rfl, rfl, rfl, rfl, rfl, rfl, rfl, rfl⟩

/-! ### Claim C6: the output/flush invariant -/

/-- Counterexample to C6 as stated: right after `start_flush_at_pressure 5`
on a fresh controller — a reachable state — `flush` is true but the stored
`output` field is `0`, not the flush pressure `5`.  The code only *returns*
`flush_pressure` from `update`; it never copies it into `output`. -/
theorem PID.output_flush_cex :
    PID.Reachable (PID.start_flush_at_pressure 5 (PID.init 0 (1/5) 0 0)) ∧
    (PID.start_flush_at_pressure 5 (PID.init 0 (1/5) 0 0)).flush = true ∧
    (PID.start_flush_at_pressure 5 (PID.init 0 (1/5) 0 0)).output ≠
      (PID.start_flush_at_pressure 5 (PID.init 0 (1/5) 0 0)).flush_pressure :=
  ⟨PID.Reachable.start_flush _ 5 (PID.Reachable.init 0 (1/5) 0 0), rfl,
    by norm_num [PID.start_flush_at_pressure, PID.init, PID.clear]⟩

/-- Amended C6: it is the value *returned* by `update` that equals
`flush_pressure` when `flush` is true, and the stored `output` otherwise;
an effective update stores `output = PTerm + Ki*ITerm + Kd*DTerm` (with the
gains current at that call), and a non-effective update leaves `output`
unchanged. -/
theorem PID.update_output_spec (s : PID) (now x : ℚ) :
    (PID.update now x s).2 =
      (if s.flush then s.flush_pressure else ((PID.update now x s).1).output) ∧
    ((PID.update now x s).1).output =
      (if s.sample_time ≤ now - s.last_time then
        ((PID.update now x s).1).PTerm + s.Ki * ((PID.update now x s).1).ITerm
          + s.Kd * ((PID.update now x s).1).DTerm
       else s.output) := by
  refine ⟨PID.update_ret now x s, ?_⟩
  by_cases h : s.sample_time ≤ now - s.last_time
  · rw [if_pos h, PID.update_output_effective _ _ _ h,
      PID.update_PTerm_effective _ _ _ h]
  · rw [if_neg h, PID.update_not_effective _ _ _ (not_le.mp h)]

/-! ### Claim C10: `restart_flow` seeds the integral unclamped -/

/-- Claim C10: with `newI = 1/10 ≠ 0` and `lastOutput = 10^6`, the seeded
`ITerm = 10^7` exceeds the windup guard in magnitude right after
`restart_flow`; the very next effective update clamps it back within the
guard. -/
theorem PID.resume_seed_unclamped :
    ((1:ℚ)/10 ≠ 0) ∧
    |(1000000:ℚ) / ((1:ℚ)/10)| > 1000000 ∧
    (PID.restart_flow 0 0 (1/10) 1000000 (PID.init 0 (1/5) 0 0)).ITerm >
      (PID.restart_flow 0 0 (1/10) 1000000 (PID.init 0 (1/5) 0 0)).windup_guard ∧
    -(((PID.update 1 0 (PID.restart_flow 0 0 (1/10) 1000000 (PID.init 0 (1/5) 0 0))).1).windup_guard) ≤
      ((PID.update 1 0 (PID.restart_flow 0 0 (1/10) 1000000 (PID.init 0 (1/5) 0 0))).1).ITerm ∧
    ((PID.update 1 0 (PID.restart_flow 0 0 (1/10) 1000000 (PID.init 0 (1/5) 0 0))).1).ITerm ≤
      ((PID.update 1 0 (PID.restart_flow 0 0 (1/10) 1000000 (PID.init 0 (1/5) 0 0))).1).windup_guard := by
  refine ⟨by norm_num, by norm_num, ?_, ?_, ?_⟩ <;>
    norm_num [PID.update, PID.restart_flow, PID.init, PID.clear]
